import Mathlib

/-!
Verification of the income-statement CSV parser (`src/main.py`).

The parsing core of the service is embedded shallowly:

* a pandas cell is modelled by `Cell` (`nan` covers both `NaN` and Python
  `None`, which behave identically under `pd.isna`);
* a dataframe is a `Frame`: the list of column headers plus the rows in
  order, each row a list of cells aligned with the headers (this is the
  in-memory table `pd.read_csv` produces; `df.iterrows()` enumerates it
  with the default `RangeIndex`, i.e. positional indices `0, 1, ...`);
* Python floats are modelled by `ℚ`.  Every numeric value exercised here
  (currency amounts with two decimals, small sums) is exactly
  representable, and the position thresholds `0.2/0.4/0.9 * total_rows`
  round, for any realistic row count, to the same comparisons as the
  exact rationals `2/10, 4/10, 9/10 * total_rows`;
* the two `datetime.now()` readings that `parse_income_statement_csv`
  performs (`strftime("%Y")` and `isoformat()`) are passed in as explicit
  parameters `now_year` / `now_iso`, so clock dependence is visible in
  the types.

String operations are implemented structurally over `List Char` (the
library versions use well-founded recursion, which blocks kernel
evaluation); the handful of `Rat` primitives marked `@[irreducible]`
upstream are made semireducible so concrete runs evaluate.

Functions keep the names of the Python functions they embed.
-/

set_option allowUnsafeReducibility true

attribute [local semireducible] Rat.add Rat.sub Rat.mul Rat.inv Rat.div
  Rat.ofScientific Rat.blt

/-- A pandas cell: missing (`NaN`/`None`), numeric, or text. -/
inductive Cell where
  | nan : Cell
  | num : ℚ → Cell
  | str : String → Cell
deriving DecidableEq, Repr

/-- Model of `pd.isna` on a cell. -/
def pdIsna : Cell → Bool
  | Cell.nan => true
  | _ => false

/-- Python `str.lower()` (ASCII reading). -/
def toLowerStr (s : String) : String :=
  String.mk (s.toList.map Char.toLower)

/-- Leading and trailing whitespace removed: Python `str.strip()`. -/
def stripList (cs : List Char) : List Char :=
  ((cs.dropWhile (fun c => c.isWhitespace)).reverse.dropWhile
    (fun c => c.isWhitespace)).reverse

/-- Python `str.strip()`. -/
def pyStrip (s : String) : String :=
  String.mk (stripList s.toList)

/-- Python `s.replace(c, '')` for a single-character pattern: every
occurrence of `c` is removed. -/
def removeChar (c : Char) (s : String) : String :=
  String.mk (s.toList.filter (fun d => d ≠ c))

/-- Python `str.startswith`. -/
def strStartsWith (s p : String) : Bool :=
  p.toList.isPrefixOf s.toList

/-- Python `str(x)` on a cell.  Text cells are returned verbatim; `NaN`
prints as `"nan"`.  Numeric cells only ever reach `str` as account-name
cells, which the reports in scope never contain; they are rendered from
the fraction, which is never the empty string — exactly the property the
skip test relies on. -/
def cellStr : Cell → String
  | Cell.nan => "nan"
  | Cell.num q =>
      if q.den = 1 then toString q.num
      else toString q.num ++ "/" ++ toString q.den
  | Cell.str s => s

/-- Substring test on character lists, via `List.isPrefixOf`. -/
def containsSubAux (needle : List Char) : List Char → Bool
  | [] => needle.isEmpty
  | c :: t => needle.isPrefixOf (c :: t) || containsSubAux needle t

/-- Python's `needle in hay` substring test. -/
def containsSub (hay needle : String) : Bool :=
  containsSubAux needle.toList hay.toList

/-- Whether `re.search(a ++ ".*" ++ b, hay)` succeeds: an occurrence of `a`
followed (at or after its end) by an occurrence of `b`.  Account labels
never contain newlines, so `.*` is unrestricted here. -/
def seqSubAux (a b : List Char) : List Char → Bool
  | [] => a.isEmpty && b.isEmpty
  | c :: t =>
      (a.isPrefixOf (c :: t) && containsSubAux b ((c :: t).drop a.length))
        || seqSubAux a b t

/-- String version of `seqSubAux`. -/
def seqSub (hay a b : String) : Bool :=
  seqSubAux a.toList b.toList hay.toList

/-- Number of leading whitespace characters:
`len(t) - len(t.lstrip())`. -/
def leadingWs (s : String) : Nat :=
  (s.toList.takeWhile (fun c => c.isWhitespace)).length

/-- Python `str.isupper`: at least one cased character and no lowercase
character (ASCII reading). -/
def pyIsUpper (s : String) : Bool :=
  s.toList.any (fun c => c.isUpper || c.isLower)
    && s.toList.all (fun c => !c.isLower)

/-- Word counter for `len(s.split())`: counts maximal non-whitespace
runs; the boolean records whether the scan is inside a run. -/
def countWordsAux : List Char → Bool → Nat
  | [], _ => 0
  | c :: t, inWord =>
    if c.isWhitespace then countWordsAux t false
    else (if inWord then 0 else 1) + countWordsAux t true

/-- Python `len(s.split())`. -/
def pyWordCount (s : String) : Nat :=
  countWordsAux s.toList false

/-- Numeric value of a digit string. -/
def digitsToNat (ds : List Char) : Nat :=
  ds.foldl (fun a c => a * 10 + (c.toNat - '0'.toNat)) 0

/-- Model of Python `float(s)` on finite decimal literals: surrounding
whitespace, an optional sign, digits with an optional fractional part (at
least one digit overall), and an optional exponent.  The special forms
`inf`/`nan` and underscore digit separators lie outside the numeric domain
of this report format and are not modelled. -/
def pyParseFloat (s : String) : Option ℚ :=
  let cs := stripList s.toList
  let sgn : ℚ × List Char :=
    match cs with
    | '+' :: t => (1, t)
    | '-' :: t => (-1, t)
    | t => (1, t)
  let ip := sgn.2.takeWhile (fun c => c.isDigit)
  let r1 := sgn.2.dropWhile (fun c => c.isDigit)
  let fp : Option (List Char) × List Char :=
    match r1 with
    | '.' :: t => (some (t.takeWhile (fun c => c.isDigit)),
                   t.dropWhile (fun c => c.isDigit))
    | t => (none, t)
  if ip = [] ∧ (fp.1 = none ∨ fp.1 = some []) then none
  else
    let mant : ℚ := (digitsToNat ip : ℚ) +
      (match fp.1 with
       | some d => (digitsToNat d : ℚ) / (10 ^ d.length)
       | none => 0)
    match fp.2 with
    | [] => some (sgn.1 * mant)
    | e :: t =>
      if e = 'e' ∨ e = 'E' then
        let es : ℤ × List Char :=
          match t with
          | '+' :: t2 => (1, t2)
          | '-' :: t2 => (-1, t2)
          | t2 => (1, t2)
        let ed := es.2.takeWhile (fun c => c.isDigit)
        let t3 := es.2.dropWhile (fun c => c.isDigit)
        if ed = [] ∨ t3 ≠ [] then none
        else some (sgn.1 * mant * (10 : ℚ) ^ (es.1 * (digitsToNat ed : ℤ)))
      else none

/-- Python `val.replace('$', '').replace(',', '').strip()`. -/
def pyClean (s : String) : String :=
  pyStrip (removeChar ',' (removeChar '$' s))

/-- The accounting-parenthesis rewrite: `(X)` becomes `-X`
(`'-' + val[1:-1]` when the string starts with `(` and ends with `)`). -/
def parenNeg (v : String) : String :=
  if v.toList.head? = some '(' ∧ v.toList.getLast? = some ')' then
    String.mk ('-' :: (v.toList.drop 1).dropLast)
  else v

/-- Model of `safe_float` (main.py lines 98–130): NaN/None → 0.0; numbers cast
directly; strings are cleaned of `$`, `,` and surrounding whitespace, a
lone `-` or the empty string give 0.0, parenthesised values are negated,
and a failed numeric parse gives 0.0.  Total by construction — the model
of "never raises". -/
def safe_float : Cell → ℚ
  | Cell.nan => 0
  | Cell.num q => q
  | Cell.str s =>
    let v := pyClean s
    if v = "" ∨ v = "-" then 0
    else
      match pyParseFloat (parenNeg v) with
      | some q => q
      | none => 0

/-- The level-0 keyword list of `detect_category_level`. -/
def levelKeywords : List String :=
  ["Total Income", "Total Expense", "Net Income", "NOI",
   "Net Operating Income", "Operating Income & Expense"]

/-- Model of `detect_category_level` (main.py lines 133–185).  The first argument
is the account name (`none` models a NaN argument; the parse loop only
ever passes real strings), the second the original untrimmed text. -/
def detect_category_level (account_name : Option String)
    (original_text : String) : Nat :=
  match account_name with
  | none => 0
  | some name =>
    let leading := leadingWs original_text
    if 12 ≤ leading then 3
    else if 8 ≤ leading then 2
    else if 4 ≤ leading then 1
    else
      let account_str := pyStrip name
      if levelKeywords.any (fun k => containsSub account_str k) then 0
      else if pyIsUpper account_str ∧ pyWordCount account_str ≤ 4 then 1
      else if strStartsWith account_str "Total " then 1
      else if containsSub account_str " - " ∨ containsSub account_str ": "
        then 2
      else 2

/-- Income keywords of `detect_category_type`. -/
def incomeKeywords : List String :=
  ["income", "revenue", "fee income", "management fee", "leasing fee",
   "operating income", "rental income"]

/-- COGS keywords of `detect_category_type`. -/
def cogsKeywords : List String :=
  ["cogs", "cost of goods", "commission", "direct cost", "cost of sales"]

/-- Expense keywords of `detect_category_type`. -/
def expenseKeywords : List String :=
  ["expense", "cost", "payroll", "marketing", "administrative",
   "travel", "insurance", "office", "bank", "legal", "professional"]

/-- Model of `detect_category_type` (main.py lines 188–233): keyword lists checked
income → cogs → expense on the lowercased name, then the positional
fallback with thresholds 0.2 / 0.4 / 0.9 of the total row count. -/
def detect_category_type (account_name : Option String)
    (row_index total_rows : Nat) : String :=
  match account_name with
  | none => "other"
  | some name =>
    let s := toLowerStr name
    if incomeKeywords.any (fun k => containsSub s k) then "income"
    else if cogsKeywords.any (fun k => containsSub s k) then "cogs"
    else if expenseKeywords.any (fun k => containsSub s k) then "expense"
    else if (row_index : ℚ) < (total_rows : ℚ) * (2/10) then "income"
    else if (row_index : ℚ) < (total_rows : ℚ) * (4/10) then "cogs"
    else if (row_index : ℚ) < (total_rows : ℚ) * (9/10) then "expense"
    else "other"


/-- A parsed dataframe: ordered column headers plus rows in order, each
row aligned with the headers. -/
structure Frame where
  columns : List String
  rows : List (List Cell)
deriving DecidableEq, Repr

/-- Model of `row.get(col, dflt)` on a pandas row: the cell under the first column
named `col`, or `dflt` when no such column exists (a row always carries a
cell for every column; a short list yields `nan` like a missing value
would). -/
def rowGetD (columns : List String) (row : List Cell) (col : String)
    (dflt : Cell) : Cell :=
  match columns.findIdx? (fun c => c = col) with
  | some i => row.getD i Cell.nan
  | none => dflt

/-- One emitted category record (main.py lines 365–373). -/
structure Category where
  category_id : String
  account_name : String
  category_level : Nat
  category_type : String
  parent_category : Option String
  is_total : Bool
  display_order : Nat
deriving DecidableEq, Repr

/-- One monthly fact (main.py lines 381–386). -/
structure MonthlyFact where
  category_id : String
  account_name : String
  month_year : String
  amount : ℚ
deriving DecidableEq, Repr

/-- The fixed totals record (main.py lines 455–464). -/
structure Totals where
  total_operating_income : ℚ
  total_cogs : ℚ
  real_revenue : ℚ
  total_operating_expense : ℚ
  noi : ℚ
  total_income : ℚ
  total_expense : ℚ
  net_income : ℚ
deriving DecidableEq, Repr

/-- The metadata record (main.py lines 392–400). -/
structure Metadata where
  report_period : String
  period_start : Option String
  period_end : Option String
  upload_date : String
  total_categories : Nat
  total_data_points : Nat
  month_columns : List String
deriving DecidableEq, Repr

/-- The value returned by `parse_income_statement_csv`. -/
structure ParseResult where
  metadata : Metadata
  categories : List Category
  monthly_data : List MonthlyFact
  totals : Totals
deriving DecidableEq, Repr

/-- Model of `extract_parent_category` (main.py lines 236–256): level 0 has no
parent; otherwise the most recently emitted category at `level - 1`
(first hit when scanning the emitted list in reverse). -/
def extract_parent_category (category_level : Nat)
    (previous_categories : List Category) : Option String :=
  if category_level = 0 then none
  else
    (previous_categories.reverse.find?
      (fun cat => cat.category_level = category_level - 1)).map
      (fun cat => cat.account_name)

/-- Month-column selection (main.py lines 291–295): every header after
the first whose lowercase text does not contain `"total"` and is not
literally `"nan"`. -/
def month_columns_of (columns : List String) : List String :=
  (columns.drop 1).filter
    (fun col => !containsSub (toLowerStr col) "total"
                && toLowerStr col ≠ "nan")

/-- Model of `re.search(r'20\d{2}', s)`: the leftmost occurrence of `20` followed
by two digits, scanning character by character. -/
def yearSearchAux : List Char → Option String
  | c1 :: c2 :: c3 :: c4 :: rest =>
    if c1 = '2' ∧ c2 = '0' ∧ c3.isDigit ∧ c4.isDigit then
      some (String.mk [c1, c2, c3, c4])
    else yearSearchAux (c2 :: c3 :: c4 :: rest)
  | _ => none

/-- String version of `yearSearchAux`. -/
def yearSearch (s : String) : Option String :=
  yearSearchAux s.toList

/-- Lowercased month abbreviations recognised by `%b`. -/
def monthAbbrevs : List String :=
  ["jan", "feb", "mar", "apr", "may", "jun",
   "jul", "aug", "sep", "oct", "nov", "dec"]

/-- Model of `datetime.strptime(s, "%b %Y")`, as `some (year, month)`: a month
abbreviation (matched case-insensitively), at least one whitespace
character (whitespace in a `strptime` format matches a run), and exactly
four digits covering the rest of the string; `datetime` rejects year 0.
`none` models the `ValueError`. -/
def strptimeBY (s : String) : Option (Nat × Nat) :=
  match s.toList with
  | a :: b :: c :: rest =>
    match monthAbbrevs.findIdx?
        (fun m => m = toLowerStr (String.mk [a, b, c])) with
    | none => none
    | some mIdx =>
      let ws := rest.takeWhile (fun ch => ch.isWhitespace)
      let r2 := rest.dropWhile (fun ch => ch.isWhitespace)
      if ws = [] then none
      else
        match r2 with
        | [d1, d2, d3, d4] =>
          if d1.isDigit ∧ d2.isDigit ∧ d3.isDigit ∧ d4.isDigit then
            let y := digitsToNat [d1, d2, d3, d4]
            if y = 0 then none else some (y, mIdx + 1)
          else none
        | _ => none
  | _ => none

/-- Gregorian leap year. -/
def isLeap (y : Nat) : Bool :=
  (y % 4 = 0 && y % 100 ≠ 0) || y % 400 = 0

/-- Days in a month, as computed by `next month, day 1, minus one day`. -/
def daysInMonth (y m : Nat) : Nat :=
  if m = 2 then (if isLeap y then 29 else 28)
  else if m = 4 ∨ m = 6 ∨ m = 9 ∨ m = 11 then 30
  else 31

/-- Two-digit zero padding (`%m`, `%d`). -/
def pad2 (n : Nat) : String :=
  if n < 10 then "0" ++ toString n else toString n

/-- The period-resolution section of `parse_income_statement_csv`
(main.py lines 302–335), returning
`(report_period, period_start, period_end)`.  The year is searched in the
first month column; the `try` block assigns `period_start` from the first
month header before parsing the last one, so a failure on the last header
leaves `period_start` assigned; with no year (or no month columns) all
three fall back to the current year. -/
def resolve_period (mcs : List String) (now_year : String) :
    String × Option String × Option String :=
  match mcs with
  | [] => (now_year, some (now_year ++ "-01-01"), some (now_year ++ "-12-31"))
  | first :: rest =>
    match yearSearch first with
    | none =>
      (now_year, some (now_year ++ "-01-01"), some (now_year ++ "-12-31"))
    | some y =>
      match strptimeBY first with
      | none => (y, none, none)
      | some ym =>
        let period_start := toString ym.1 ++ "-" ++ pad2 ym.2 ++ "-01"
        let last := (first :: rest).getLastD ""
        match strptimeBY last with
        | none => (y, some period_start, none)
        | some ym2 =>
          let period_end :=
            if ym2.2 = 12 then toString ym2.1 ++ "-12-31"
            else toString ym2.1 ++ "-" ++ pad2 ym2.2 ++ "-"
                   ++ toString (daysInMonth ym2.1 ym2.2)
          (y, some period_start, some period_end)

/-- The row loop of `parse_income_statement_csv` (main.py lines 342–386).
Rows whose account cell is NaN or blank after trimming are skipped; every
kept row emits one category record and one fact per month column.  The
source appends each record to both `categories` and `previous_categories`;
since the two lists are always identical, one accumulator (`previous`)
stands for both, and the emitted suffix is returned. -/
def parseLoop (columns : List String) (account_col : String)
    (month_columns : List String) (total_rows : Nat) :
    Nat → List Category → List (List Cell) →
      List Category × List MonthlyFact
  | _, _, [] => ([], [])
  | idx, previous, row :: rest =>
    let raw := rowGetD columns row account_col Cell.nan
    if pdIsna raw = true ∨ pyStrip (cellStr raw) = "" then
      parseLoop columns account_col month_columns total_rows
        (idx + 1) previous rest
    else
      let account_name := pyStrip (cellStr raw)
      let category_level :=
        detect_category_level (some account_name) (cellStr raw)
      let category_type :=
        detect_category_type (some account_name) idx total_rows
      let parent_category := extract_parent_category category_level previous
      let is_total :=
        strStartsWith (toLowerStr account_name) "total "
          || containsSub (toLowerStr account_name) "net income"
          || containsSub (toLowerStr account_name) "noi"
      let category_id := "cat_" ++ toString idx
      let cat : Category :=
        { category_id := category_id
          account_name := account_name
          category_level := category_level
          category_type := category_type
          parent_category := parent_category
          is_total := is_total
          display_order := idx }
      let facts := month_columns.map (fun mc =>
        { category_id := category_id
          account_name := account_name
          month_year := mc
          amount := safe_float (rowGetD columns row mc (Cell.num 0))
          : MonthlyFact })
      let r := parseLoop columns account_col month_columns total_rows
        (idx + 1) (previous ++ [cat]) rest
      (cat :: r.1, facts ++ r.2)

/-- Sum of the normalized month-column values of one row (the inner loop
of `find_row_total`, main.py lines 437–439). -/
def monthSum (columns month_columns : List String) (row : List Cell) : ℚ :=
  month_columns.foldl
    (fun acc mc => acc + safe_float (rowGetD columns row mc (Cell.num 0)))
    0

/-- Model of
`df[account_col].str.contains(pat, case=False, na=False, regex=True)`
on one row: the pattern is searched in string cells; missing or numeric
cells count as no match (`na=False`). -/
def rowMatchesPat (columns : List String) (account_col : String)
    (p : String → Bool) (row : List Cell) : Bool :=
  match rowGetD columns row account_col Cell.nan with
  | Cell.str s => p s
  | _ => false

/-- Model of `find_row_total` (main.py lines 427–441): the first row (in order)
whose account text matches, summed over the month columns; 0.0 when no
row matches. -/
def find_row_total (f : Frame) (account_col : String)
    (month_columns : List String) (p : String → Bool) : ℚ :=
  match f.rows.find? (rowMatchesPat f.columns account_col p) with
  | none => 0
  | some row => monthSum f.columns month_columns row

/-- Case-insensitive `re.search(r'Total Operating Income', s)`. -/
def patTotalOperatingIncome (s : String) : Bool :=
  containsSub (toLowerStr s) "total operating income"

/-- Case-insensitive `re.search(r'Total.*COGS|Total.*Cost of Goods', s)`. -/
def patTotalCogs (s : String) : Bool :=
  seqSub (toLowerStr s) "total" "cogs"
    || seqSub (toLowerStr s) "total" "cost of goods"

/-- Case-insensitive `re.search(r'Total Operating Expense', s)`. -/
def patTotalOperatingExpense (s : String) : Bool :=
  containsSub (toLowerStr s) "total operating expense"

/-- Case-insensitive `re.search(r'NOI|Net Operating Income', s)`. -/
def patNoi (s : String) : Bool :=
  containsSub (toLowerStr s) "noi"
    || containsSub (toLowerStr s) "net operating income"

/-- Case-insensitive `re.search(r'^Total Income$', s)` (account labels
carry no trailing newline, so `$` means end of string). -/
def patTotalIncomeExact (s : String) : Bool :=
  toLowerStr s = "total income"

/-- Case-insensitive `re.search(r'^Total Expense$', s)`. -/
def patTotalExpenseExact (s : String) : Bool :=
  toLowerStr s = "total expense"

/-- Case-insensitive `re.search(r'Net Income', s)`. -/
def patNetIncome (s : String) : Bool :=
  containsSub (toLowerStr s) "net income"

/-- Round half to even at integer precision (Python `round`). -/
def roundHalfEven (q : ℚ) : ℤ :=
  let n := ⌊q⌋
  let r := q - n
  if r < 1/2 then n
  else if 1/2 < r then n + 1
  else if n % 2 = 0 then n else n + 1

/-- Python `round(x, 2)` on the exact value. -/
def round2 (q : ℚ) : ℚ :=
  (roundHalfEven (q * 100) : ℚ) / 100

/-- Model of `calculate_totals` (main.py lines 413–468): seven label searches,
each summing only the first matching row, plus the derived
`real_revenue`, all rounded to two decimals. -/
def calculate_totals (f : Frame) (account_col : String)
    (month_columns : List String) : Totals :=
  let total_operating_income :=
    find_row_total f account_col month_columns patTotalOperatingIncome
  let total_cogs := find_row_total f account_col month_columns patTotalCogs
  let total_operating_expense :=
    find_row_total f account_col month_columns patTotalOperatingExpense
  let noi := find_row_total f account_col month_columns patNoi
  let total_income :=
    find_row_total f account_col month_columns patTotalIncomeExact
  let total_expense :=
    find_row_total f account_col month_columns patTotalExpenseExact
  let net_income := find_row_total f account_col month_columns patNetIncome
  let real_revenue := total_operating_income - total_cogs
  { total_operating_income := round2 total_operating_income
    total_cogs := round2 total_cogs
    real_revenue := round2 real_revenue
    total_operating_expense := round2 total_operating_expense
    noi := round2 noi
    total_income := round2 total_income
    total_expense := round2 total_expense
    net_income := round2 net_income }

/-- Model of `parse_income_statement_csv` (main.py lines 259–410) on the parsed
table.  `now_year` and `now_iso` stand for the two `datetime.now()`
readings (`strftime("%Y")` on line 333 and `isoformat()` on line 396).
`none` models the `IndexError` a table without columns raises at
`columns[0]` (the catastrophic-failure path caught by the caller). -/
def parse_income_statement_csv (f : Frame) (now_year now_iso : String) :
    Option ParseResult :=
  match f.columns with
  | [] => none
  | account_col :: _ =>
    let month_columns := month_columns_of f.columns
    let pr := resolve_period month_columns now_year
    let rp := parseLoop f.columns account_col month_columns
      f.rows.length 0 [] f.rows
    some
      { metadata :=
          { report_period := pr.1
            period_start := pr.2.1
            period_end := pr.2.2
            upload_date := now_iso
            total_categories := rp.1.length
            total_data_points := rp.2.length
            month_columns := month_columns }
        categories := rp.1
        monthly_data := rp.2
        totals := calculate_totals f account_col month_columns }

/-- The categories of a parse outcome (empty on the failure path). -/
def categoriesOf : Option ParseResult → List Category
  | none => []
  | some r => r.categories

/-- The monthly facts of a parse outcome. -/
def monthlyOf : Option ParseResult → List MonthlyFact
  | none => []
  | some r => r.monthly_data

/-- The totals of a parse outcome. -/
def totalsOf : Option ParseResult → Option Totals
  | none => none
  | some r => some r.totals

/-- The category levels of a parse outcome, in emission order. -/
def levelsOf (o : Option ParseResult) : List Nat :=
  (categoriesOf o).map (fun c => c.category_level)

/-- The `(category_id, display_order, category_type)` triple per category. -/
def catSummary (o : Option ParseResult) : List (String × Nat × String) :=
  (categoriesOf o).map
    (fun c => (c.category_id, c.display_order, c.category_type))

/-- The report period of a parse outcome. -/
def reportPeriodOf : Option ParseResult → Option String
  | none => none
  | some r => some r.metadata.report_period

/-- The `(period_start, period_end)` pair of a parse outcome. -/
def periodsOf : Option ParseResult → Option (Option String × Option String)
  | none => none
  | some r => some (r.metadata.period_start, r.metadata.period_end)

/-- The month-column list of a parse outcome. -/
def monthColsOf : Option ParseResult → Option (List String)
  | none => none
  | some r => some r.metadata.month_columns

/-- The `(total_categories, total_data_points)` counts. -/
def countsOf : Option ParseResult → Option (Nat × Nat)
  | none => none
  | some r => some (r.metadata.total_categories, r.metadata.total_data_points)

/-- The table `pd.read_csv` produces for the spec's 3-row scenario CSV
(`Account,Jan 2025,Feb 2025` header; quoted account labels; integer
amounts). -/
def c1frame : Frame :=
  { columns := ["Account", "Jan 2025", "Feb 2025"]
    rows :=
      [[Cell.str "Total Operating Income", Cell.num 100, Cell.num 200],
       [Cell.str "MARKETING EXPENSE", Cell.num (-30), Cell.num (-40)],
       [Cell.str "Net Income", Cell.num 70, Cell.num 160]] }

/-- The header row of the PeriodResolver scenario. -/
def c7columns : List String :=
  ["Account", "Jan 2025", "Feb 2025", "Mar 2025", "Apr 2025", "May 2025",
   "Jun 2025", "Jul 2025", "Aug 2025", "Sep 2025", "Oct 2025", "Nov 2025",
   "Dec 2025", "Total"]

/-- The twelve month columns that scenario must select. -/
def c7months : List String :=
  ["Jan 2025", "Feb 2025", "Mar 2025", "Apr 2025", "May 2025",
   "Jun 2025", "Jul 2025", "Aug 2025", "Sep 2025", "Oct 2025", "Nov 2025",
   "Dec 2025"]

/-- A table whose first month header parses as a date but whose last
month header does not. -/
def c8frame : Frame :=
  { columns := ["Account", "Jan 2025", "Bogus 2026"], rows := [] }

/-- A table whose single month column contains no 4-digit year. -/
def noYearFrame : Frame :=
  { columns := ["Account", "M1"], rows := [] }

/-- Two rows that both match `^Total Income$` with different values. -/
def c4frame : Frame :=
  { columns := ["Account", "Jan 2025"]
    rows :=
      [[Cell.str "Total Income", Cell.num 1],
       [Cell.str "Total Income", Cell.num 999]] }

/-- A table with a blank first row (kept by pandas as an all-NaN row):
raw indices are 0–4, emitted categories get indices 1–4, and the
unrecognised last label sits at raw index 4 of 5 raw rows. -/
def c10frame : Frame :=
  { columns := ["Account", "Jan 2025"]
    rows :=
      [[Cell.nan, Cell.num 1],
       [Cell.str "Aaa", Cell.num 2],
       [Cell.str "Bbb", Cell.num 3],
       [Cell.str "Ccc", Cell.num 4],
       [Cell.str "Miscellaneous", Cell.num 5]] }

/-- The category `c10frame` emits for its last row. -/
def c10cat : Category :=
  { category_id := "cat_4"
    account_name := "Miscellaneous"
    category_level := 2
    category_type := "expense"
    parent_category := none
    is_total := false
    display_order := 4 }

/-- A two-row table where the second category's parent is the first. -/
def c3frame : Frame :=
  { columns := ["Account", "Jan 2025"]
    rows :=
      [[Cell.str "Total Income", Cell.num 5],
       [Cell.str "MARKETING EXPENSE", Cell.num 3]] }

/-- The first category `c3frame` emits. -/
def c3cat0 : Category :=
  { category_id := "cat_0"
    account_name := "Total Income"
    category_level := 0
    category_type := "income"
    parent_category := none
    is_total := true
    display_order := 0 }

/-- The second category `c3frame` emits. -/
def c3cat1 : Category :=
  { category_id := "cat_1"
    account_name := "MARKETING EXPENSE"
    category_level := 1
    category_type := "expense"
    parent_category := some "Total Income"
    is_total := false
    display_order := 1 }

theorem parseLoop_mem (columns : List String) (account_col : String)
    (month_columns : List String) (total_rows : Nat) :
    ∀ (rows : List (List Cell)) (idx : Nat) (previous : List Category)
      (c : Category),
      c ∈ (parseLoop columns account_col month_columns total_rows
            idx previous rows).1 →
      c.category_id = "cat_" ++ toString c.display_order ∧
      c.category_type =
        detect_category_type (some c.account_name) c.display_order
          total_rows ∧
      idx ≤ c.display_order ∧ c.display_order < idx + rows.length := by
  intro rows
  induction rows with
  | nil => intro idx previous c hc; simp [parseLoop] at hc
  | cons row rest ih =>
    intro idx previous c hc
    simp only [parseLoop] at hc
    by_cases hskip :
        pdIsna (rowGetD columns row account_col Cell.nan) = true
          ∨ pyStrip (cellStr (rowGetD columns row account_col Cell.nan)) = ""
    · rw [if_pos hskip] at hc
      have h := ih (idx + 1) previous c hc
      refine ⟨h.1, h.2.1, by omega, ?_⟩
      have := h.2.2.2
      simp only [List.length_cons]
      omega
    · rw [if_neg hskip] at hc
      dsimp only at hc
      rcases List.mem_cons.mp hc with rfl | hmem
      · refine ⟨rfl, rfl, Nat.le_refl _, ?_⟩
        simp only [List.length_cons]
        omega
      · have h := ih (idx + 1) _ c hmem
        refine ⟨h.1, h.2.1, by omega, ?_⟩
        have := h.2.2.2
        simp only [List.length_cons]
        omega

theorem parseLoop_parent (columns : List String) (account_col : String)
    (month_columns : List String) (total_rows : Nat) :
    ∀ (rows : List (List Cell)) (idx : Nat) (previous : List Category)
      (pre : List Category) (c : Category) (post : List Category),
      (parseLoop columns account_col month_columns total_rows idx previous
        rows).1 = pre ++ c :: post →
      c.parent_category =
        extract_parent_category c.category_level (previous ++ pre) := by
  intro rows
  induction rows with
  | nil =>
    intro idx previous pre c post h
    simp only [parseLoop] at h
    cases pre <;> simp_all
  | cons row rest ih =>
    intro idx previous pre c post h
    simp only [parseLoop] at h
    by_cases hskip :
        pdIsna (rowGetD columns row account_col Cell.nan) = true
          ∨ pyStrip (cellStr (rowGetD columns row account_col Cell.nan)) = ""
    · rw [if_pos hskip] at h
      exact ih (idx + 1) previous pre c post h
    · rw [if_neg hskip] at h
      dsimp only at h
      cases pre with
      | nil =>
        simp only [List.nil_append] at h
        obtain ⟨h1, h2⟩ := List.cons.injEq .. ▸ h
        subst h1
        rw [List.append_nil]
      | cons p0 pre2 =>
        simp only [List.cons_append] at h
        obtain ⟨h1, h2⟩ := List.cons.injEq .. ▸ h
        subst h1
        have h3 := ih (idx + 1) _ pre2 c post h2
        simpa [List.append_assoc] using h3

theorem parseLoop_pairwise (columns : List String) (account_col : String)
    (month_columns : List String) (total_rows : Nat) :
    ∀ (rows : List (List Cell)) (idx : Nat) (previous : List Category),
      List.Pairwise (fun a b => a.display_order < b.display_order)
        (parseLoop columns account_col month_columns total_rows
          idx previous rows).1 := by
  intro rows
  induction rows with
  | nil => intro idx previous; simp [parseLoop]
  | cons row rest ih =>
    intro idx previous
    simp only [parseLoop]
    by_cases hskip :
        pdIsna (rowGetD columns row account_col Cell.nan) = true
          ∨ pyStrip (cellStr (rowGetD columns row account_col Cell.nan)) = ""
    · rw [if_pos hskip]
      exact ih (idx + 1) previous
    · rw [if_neg hskip]
      dsimp only
      rw [List.pairwise_cons]
      refine ⟨?_, ih (idx + 1) _⟩
      intro b hb
      have h := parseLoop_mem columns account_col month_columns total_rows
        rest (idx + 1) _ b hb
      have := h.2.2.1
      dsimp only
      omega

/-- C1 (counterexample): on the 3-row scenario CSV the emitted levels are
`[1, 1, 0]`, not the claimed `[0, 1, 0]` — "Total Operating Income"
contains none of the level-0 keywords (`"Total Income"` is not a
substring of it), so the `startswith("Total ")` rule fires and gives
level 1. -/
theorem c1_levels_counterexample :
    levelsOf (parse_income_statement_csv c1frame "2030" "TS") = [1, 1, 0] ∧
    levelsOf (parse_income_statement_csv c1frame "2030" "TS") ≠ [0, 1, 0] :=
  ⟨by decide, by decide⟩

/-- C1 (amended): on the 3-row scenario CSV the parse yields
`totals.total_operating_income = 300.0`, `totals.net_income = 230.0`,
exactly 3 categories with levels `1, 1, 0` in row order, and exactly 6
monthly facts. -/
theorem c1_end_to_end_amended :
    (totalsOf (parse_income_statement_csv c1frame "2030" "TS")).map
        Totals.total_operating_income = some 300 ∧
    (totalsOf (parse_income_statement_csv c1frame "2030" "TS")).map
        Totals.net_income = some 230 ∧
    (categoriesOf (parse_income_statement_csv c1frame "2030" "TS")).length
      = 3 ∧
    levelsOf (parse_income_statement_csv c1frame "2030" "TS") = [1, 1, 0] ∧
    (monthlyOf (parse_income_statement_csv c1frame "2030" "TS")).length
      = 6 :=
  ⟨by decide, by decide, by decide, by decide, by decide⟩

/-- C2: `safe_float` returns a value for every input (it is total by
construction, the model of "never raises"); the five contract points of
the spec hold, and any string whose cleaned form (after `$`/`,`/space
stripping and the parenthesis rewrite) fails the numeric parse yields
0.0. -/
theorem c2_safe_float_contract :
    safe_float (Cell.str "$1,234.56") = 1234.56 ∧
    safe_float (Cell.str "(500)") = -500 ∧
    safe_float (Cell.str "") = 0 ∧
    safe_float Cell.nan = 0 ∧
    safe_float (Cell.str "-") = 0 ∧
    ∀ s : String, pyParseFloat (parenNeg (pyClean s)) = none →
      safe_float (Cell.str s) = 0 := by
  refine ⟨by decide, by decide, by decide, by decide, by decide, ?_⟩
  intro s h
  simp only [safe_float]
  by_cases hv : pyClean s = "" ∨ pyClean s = "-"
  · rw [if_pos hv]
  · rw [if_neg hv, h]

/-- C2 witness: the string `"N/A"` fails the numeric parse and
normalizes to 0.0. -/
theorem c2_safe_float_contract_witness :
    pyParseFloat (parenNeg (pyClean "N/A")) = none ∧
    safe_float (Cell.str "N/A") = 0 :=
  ⟨by decide, c2_safe_float_contract.2.2.2.2.2 "N/A" (by decide)⟩

/-- C5: indentation takes priority over the pattern rules — whatever the
account text, 12 or more leading whitespace characters give level 3,
8–11 give level 2, 4–7 give level 1; and twelve spaces before
"Google Ads" give level 3. -/
theorem c5_indentation_priority :
    (∀ (name original_text : String),
      (12 ≤ leadingWs original_text →
        detect_category_level (some name) original_text = 3) ∧
      (8 ≤ leadingWs original_text → leadingWs original_text < 12 →
        detect_category_level (some name) original_text = 2) ∧
      (4 ≤ leadingWs original_text → leadingWs original_text < 8 →
        detect_category_level (some name) original_text = 1)) ∧
    detect_category_level (some "Google Ads") "            Google Ads"
      = 3 := by
  refine ⟨?_, by decide⟩
  intro name orig
  refine ⟨fun h => ?_, fun h8 h12 => ?_, fun h4 h8 => ?_⟩
  · simp only [detect_category_level]
    rw [if_pos h]
  · simp only [detect_category_level]
    rw [if_neg (by omega), if_pos h8]
  · simp only [detect_category_level]
    rw [if_neg (by omega), if_neg (by omega), if_pos h4]

/-- C5 witness: the 12-space case instantiated. -/
theorem c5_indentation_priority_witness :
    12 ≤ leadingWs "            Google Ads" ∧
    detect_category_level (some "Google Ads") "            Google Ads"
      = 3 :=
  ⟨by decide,
    (c5_indentation_priority.1 "Google Ads" "            Google Ads").1
      (by decide)⟩

/-- C6: `detect_category_type` checks the income keyword list before
cogs before expense (first match wins), and with no keyword match the
type is determined solely by row position with the 0.2 / 0.4 / 0.9
thresholds; an unrecognised name at row 95 of 100 gives "other". -/
theorem c6_type_keyword_order_and_position :
    (∀ (name : String) (row_index total_rows : Nat),
      (incomeKeywords.any (fun k => containsSub (toLowerStr name) k)
          = true →
        detect_category_type (some name) row_index total_rows
          = "income") ∧
      (incomeKeywords.any (fun k => containsSub (toLowerStr name) k)
          = false →
       cogsKeywords.any (fun k => containsSub (toLowerStr name) k)
          = true →
        detect_category_type (some name) row_index total_rows = "cogs") ∧
      (incomeKeywords.any (fun k => containsSub (toLowerStr name) k)
          = false →
       cogsKeywords.any (fun k => containsSub (toLowerStr name) k)
          = false →
       expenseKeywords.any (fun k => containsSub (toLowerStr name) k)
          = true →
        detect_category_type (some name) row_index total_rows
          = "expense") ∧
      (incomeKeywords.any (fun k => containsSub (toLowerStr name) k)
          = false →
       cogsKeywords.any (fun k => containsSub (toLowerStr name) k)
          = false →
       expenseKeywords.any (fun k => containsSub (toLowerStr name) k)
          = false →
        ((row_index : ℚ) < (total_rows : ℚ) * (2/10) →
          detect_category_type (some name) row_index total_rows
            = "income") ∧
        (¬ ((row_index : ℚ) < (total_rows : ℚ) * (2/10)) →
          (row_index : ℚ) < (total_rows : ℚ) * (4/10) →
          detect_category_type (some name) row_index total_rows
            = "cogs") ∧
        (¬ ((row_index : ℚ) < (total_rows : ℚ) * (2/10)) →
          ¬ ((row_index : ℚ) < (total_rows : ℚ) * (4/10)) →
          (row_index : ℚ) < (total_rows : ℚ) * (9/10) →
          detect_category_type (some name) row_index total_rows
            = "expense") ∧
        (¬ ((row_index : ℚ) < (total_rows : ℚ) * (2/10)) →
          ¬ ((row_index : ℚ) < (total_rows : ℚ) * (4/10)) →
          ¬ ((row_index : ℚ) < (total_rows : ℚ) * (9/10)) →
          detect_category_type (some name) row_index total_rows
            = "other"))) ∧
    detect_category_type (some "Miscellaneous") 95 100 = "other" := by
  refine ⟨?_, by decide⟩
  intro name i t
  refine ⟨fun h1 => ?_, fun h1 h2 => ?_, fun h1 h2 h3 => ?_,
    fun h1 h2 h3 => ⟨fun p1 => ?_, fun p1 p2 => ?_, fun p1 p2 p3 => ?_,
      fun p1 p2 p3 => ?_⟩⟩
  · simp only [detect_category_type]
    rw [if_pos h1]
  · simp only [detect_category_type]
    rw [if_neg (by simp [h1]), if_pos h2]
  · simp only [detect_category_type]
    rw [if_neg (by simp [h1]), if_neg (by simp [h2]), if_pos h3]
  · simp only [detect_category_type]
    rw [if_neg (by simp [h1]), if_neg (by simp [h2]), if_neg (by simp [h3]),
      if_pos p1]
  · simp only [detect_category_type]
    rw [if_neg (by simp [h1]), if_neg (by simp [h2]), if_neg (by simp [h3]),
      if_neg p1, if_pos p2]
  · simp only [detect_category_type]
    rw [if_neg (by simp [h1]), if_neg (by simp [h2]), if_neg (by simp [h3]),
      if_neg p1, if_neg p2, if_pos p3]
  · simp only [detect_category_type]
    rw [if_neg (by simp [h1]), if_neg (by simp [h2]), if_neg (by simp [h3]),
      if_neg p1, if_neg p2, if_neg p3]

/-- C6 witness: "Payroll Taxes" matches no income or cogs keyword but
matches an expense keyword, hence "expense". -/
theorem c6_type_keyword_order_and_position_witness :
    incomeKeywords.any
        (fun k => containsSub (toLowerStr "Payroll Taxes") k) = false ∧
    expenseKeywords.any
        (fun k => containsSub (toLowerStr "Payroll Taxes") k) = true ∧
    detect_category_type (some "Payroll Taxes") 0 10 = "expense" :=
  ⟨by decide, by decide,
    (c6_type_keyword_order_and_position.1 "Payroll Taxes" 0 10).2.2.1
      (by decide) (by decide) (by decide)⟩

/-- C7: on the header row `Account, Jan 2025 … Dec 2025, Total` exactly
the twelve "Mon 2025" headers are selected as month columns (the first
header and every header whose lowercase text contains "total" or equals
"nan" are excluded), and the period resolves to 2025 with bounds
2025-01-01 / 2025-12-31 — independently of the current year ("1900"
here). -/
theorem c7_period_resolution :
    month_columns_of c7columns = c7months ∧
    resolve_period (month_columns_of c7columns) "1900" =
      ("2025", some "2025-01-01", some "2025-12-31") ∧
    monthColsOf (parse_income_statement_csv ⟨c7columns, []⟩ "1900" "TS")
      = some c7months ∧
    reportPeriodOf (parse_income_statement_csv ⟨c7columns, []⟩ "1900" "TS")
      = some "2025" ∧
    periodsOf (parse_income_statement_csv ⟨c7columns, []⟩ "1900" "TS")
      = some (some "2025-01-01", some "2025-12-31") :=
  ⟨by decide, by decide, by decide, by decide, by decide⟩

/-- C4: each named total uses only the first matching row — no match
gives 0.0, the first match's month sum is the value whatever rows
follow, and of two rows both matching `^Total Income$` with values 1 and
999 only the first contributes. -/
theorem c4_first_match_total :
    (∀ (f : Frame) (account_col : String) (month_columns : List String)
        (p : String → Bool),
      (∀ row ∈ f.rows,
        rowMatchesPat f.columns account_col p row = false) →
      find_row_total f account_col month_columns p = 0) ∧
    (∀ (columns : List String) (pre : List (List Cell)) (r : List Cell)
        (post : List (List Cell)) (account_col : String)
        (month_columns : List String) (p : String → Bool),
      (∀ row ∈ pre, rowMatchesPat columns account_col p row = false) →
      rowMatchesPat columns account_col p r = true →
      find_row_total ⟨columns, pre ++ r :: post⟩ account_col
        month_columns p = monthSum columns month_columns r) ∧
    (calculate_totals c4frame "Account" ["Jan 2025"]).total_income = 1 := by
  refine ⟨?_, ?_, by decide⟩
  · intro f account_col month_columns p h
    simp only [find_row_total]
    rw [List.find?_eq_none.mpr (fun x hx => by simp [h x hx])]
  · intro columns pre
    induction pre with
    | nil =>
      intro r post account_col month_columns p h hr
      simp only [find_row_total, List.nil_append]
      rw [List.find?_cons_of_pos _ hr]
    | cons a t ih =>
      intro r post account_col month_columns p h hr
      have ht := ih r post account_col month_columns p
        (fun row hrow => h row (List.mem_cons_of_mem a hrow)) hr
      simp only [find_row_total, List.cons_append]
      rw [List.find?_cons_of_neg _ (by simp [h a (List.mem_cons_self a t)])]
      simpa [find_row_total] using ht

/-- C4 witness: the first-match rule instantiated on the two-row
`^Total Income$` table. -/
theorem c4_first_match_total_witness :
    rowMatchesPat c4frame.columns "Account" patTotalIncomeExact
      [Cell.str "Total Income", Cell.num 1] = true ∧
    find_row_total c4frame "Account" ["Jan 2025"] patTotalIncomeExact =
      monthSum c4frame.columns ["Jan 2025"]
        [Cell.str "Total Income", Cell.num 1] := by
  refine ⟨by decide, ?_⟩
  have h := c4_first_match_total.2.1 c4frame.columns []
    [Cell.str "Total Income", Cell.num 1]
    [[Cell.str "Total Income", Cell.num 999]]
    "Account" ["Jan 2025"] patTotalIncomeExact (by simp) (by decide)
  simpa using h

/-- C8 (counterexample): with month headers `Jan 2025, Bogus 2026` the
last header fails to parse as a date, yet `period_start` is assigned
(from the first header) before the failure — `period_start` is set while
`period_end` is unset, contradicting "period_start and period_end are
left unset". -/
theorem c8_period_start_set_counterexample :
    strptimeBY "Bogus 2026" = none ∧
    periodsOf (parse_income_statement_csv c8frame "1900" "TS") =
      some (some "2025-01-01", none) :=
  ⟨by decide, by decide⟩

/-- C8 (amended): with no 4-digit year in the first month column the
period falls back to the current calendar year; when date-parsing the
first month header fails, both period bounds are left unset; when the
first parses but the last fails, `period_start` is set and only
`period_end` is left unset; and the overall parse always completes on a
table that has columns. -/
theorem c8_period_fallback_amended :
    (∀ (first : String) (rest : List String) (now_year : String),
      yearSearch first = none →
      resolve_period (first :: rest) now_year =
        (now_year, some (now_year ++ "-01-01"),
          some (now_year ++ "-12-31"))) ∧
    (∀ (first : String) (rest : List String) (now_year y : String),
      yearSearch first = some y → strptimeBY first = none →
      resolve_period (first :: rest) now_year = (y, none, none)) ∧
    (∀ (first : String) (rest : List String) (now_year y : String)
        (y1 m1 : Nat),
      yearSearch first = some y → strptimeBY first = some (y1, m1) →
      strptimeBY ((first :: rest).getLastD "") = none →
      resolve_period (first :: rest) now_year =
        (y, some (toString y1 ++ "-" ++ pad2 m1 ++ "-01"), none)) ∧
    (∀ (f : Frame) (now_year now_iso : String),
      f.columns ≠ [] →
      (parse_income_statement_csv f now_year now_iso).isSome = true) := by
  refine ⟨?_, ?_, ?_, ?_⟩
  · intro first rest now_year h
    simp [resolve_period, h]
  · intro first rest now_year y h1 h2
    simp [resolve_period, h1, h2]
  · intro first rest now_year y y1 m1 h1 h2 h3
    simp only [List.getLastD_eq_getLast?] at h3
    simp [resolve_period, h1, h2, h3]
  · intro f now_year now_iso h
    cases hc : f.columns with
    | nil => exact absurd hc h
    | cons a t => simp [parse_income_statement_csv, hc]

/-- C8 witness: the `Jan 2025, Bogus 2026` header pair instantiates the
"first parses, last fails" case. -/
theorem c8_period_fallback_amended_witness :
    yearSearch "Jan 2025" = some "2025" ∧
    strptimeBY "Jan 2025" = some (2025, 1) ∧
    strptimeBY (("Jan 2025" :: ["Bogus 2026"]).getLastD "") = none ∧
    resolve_period ("Jan 2025" :: ["Bogus 2026"]) "1900" =
      ("2025", some (toString 2025 ++ "-" ++ pad2 1 ++ "-01"), none) :=
  ⟨by decide, by decide, by decide,
    c8_period_fallback_amended.2.2.1 "Jan 2025" ["Bogus 2026"] "1900"
      "2025" 2025 1 (by decide) (by decide) (by decide)⟩

theorem resolve_period_clock_indep (first : String) (rest : List String)
    (y1 y2 : String) (h : (yearSearch first).isSome = true) :
    resolve_period (first :: rest) y1 = resolve_period (first :: rest) y2 := by
  simp only [resolve_period]
  cases hy : yearSearch first with
  | none => rw [hy] at h; simp at h
  | some y => rfl

/-- C9 (counterexample): when the single month column carries no 4-digit
year, `report_period` is read from the clock — two parses of the same
table at current years 2024 and 2025 differ in `report_period`, a field
other than `upload_date`. -/
theorem c9_report_period_clock_counterexample :
    reportPeriodOf (parse_income_statement_csv noYearFrame "2024" "TS")
      = some "2024" ∧
    reportPeriodOf (parse_income_statement_csv noYearFrame "2025" "TS")
      = some "2025" ∧
    ("2024" : String) ≠ "2025" :=
  ⟨by decide, by decide, by decide⟩

/-- C9 (amended): two parses of the same table agree on categories,
monthly facts, totals, month columns and the counts whatever the clock
reads; `report_period`, `period_start` and `period_end` also agree
whenever the first month column contains a 4-digit year (only
`upload_date` — and, when no year is found, the period fields, which
fall back to the current year — read the clock). -/
theorem c9_clock_independence_amended :
    ∀ (f : Frame) (y1 i1 y2 i2 : String),
      categoriesOf (parse_income_statement_csv f y1 i1) =
        categoriesOf (parse_income_statement_csv f y2 i2) ∧
      monthlyOf (parse_income_statement_csv f y1 i1) =
        monthlyOf (parse_income_statement_csv f y2 i2) ∧
      totalsOf (parse_income_statement_csv f y1 i1) =
        totalsOf (parse_income_statement_csv f y2 i2) ∧
      monthColsOf (parse_income_statement_csv f y1 i1) =
        monthColsOf (parse_income_statement_csv f y2 i2) ∧
      countsOf (parse_income_statement_csv f y1 i1) =
        countsOf (parse_income_statement_csv f y2 i2) ∧
      (∀ (first : String) (rest : List String),
        month_columns_of f.columns = first :: rest →
        (yearSearch first).isSome = true →
        reportPeriodOf (parse_income_statement_csv f y1 i1) =
          reportPeriodOf (parse_income_statement_csv f y2 i2) ∧
        periodsOf (parse_income_statement_csv f y1 i1) =
          periodsOf (parse_income_statement_csv f y2 i2)) := by
  intro f y1 i1 y2 i2
  cases hc : f.columns with
  | nil =>
    simp [parse_income_statement_csv, hc, categoriesOf, monthlyOf,
      totalsOf, monthColsOf, countsOf, reportPeriodOf, periodsOf]
  | cons ac restCols =>
    simp only [parse_income_statement_csv, hc, categoriesOf, monthlyOf,
      totalsOf, monthColsOf, countsOf, reportPeriodOf, periodsOf]
    refine ⟨trivial, trivial, trivial, trivial, trivial, ?_⟩
    intro first rest hm hy
    rw [hm, resolve_period_clock_indep first rest y1 y2 hy]
    exact ⟨rfl, rfl⟩

/-- C9 witness: on the `Jan 2025, Bogus 2026` table the report period is
clock-independent because a year is found. -/
theorem c9_clock_independence_amended_witness :
    month_columns_of c8frame.columns = "Jan 2025" :: ["Bogus 2026"] ∧
    (yearSearch "Jan 2025").isSome = true ∧
    reportPeriodOf (parse_income_statement_csv c8frame "2024" "A") =
      reportPeriodOf (parse_income_statement_csv c8frame "2025" "B") := by
  refine ⟨by decide, by decide, ?_⟩
  exact ((c9_clock_independence_amended c8frame "2024" "A" "2025" "B"
    ).2.2.2.2.2 "Jan 2025" ["Bogus 2026"] (by decide) (by decide)).1

/-- C3: in every parse, a category of level 0 has no parent; the parent
is always the first category at `level - 1` found scanning the
previously emitted categories in reverse emission order
(`extract_parent_category` applied to the emitted prefix); and whenever
the parent is present (level > 0) some strictly earlier category carries
that name, sits at `level - 1`, and has strictly smaller
`display_order`. -/
theorem c3_parent_hierarchy_invariant :
    ∀ (f : Frame) (now_year now_iso : String) (pre : List Category)
      (c : Category) (post : List Category),
      categoriesOf (parse_income_statement_csv f now_year now_iso) =
        pre ++ c :: post →
      (c.category_level = 0 → c.parent_category = none) ∧
      c.parent_category =
        extract_parent_category c.category_level pre ∧
      (∀ p : String, 0 < c.category_level → c.parent_category = some p →
        ∃ b ∈ pre, b.account_name = p ∧
          b.category_level = c.category_level - 1 ∧
          b.display_order < c.display_order) := by
  intro f ny ni pre c post h
  cases hc : f.columns with
  | nil =>
    simp only [parse_income_statement_csv, hc, categoriesOf] at h
    cases pre <;> simp_all
  | cons ac restCols =>
    simp only [parse_income_statement_csv, hc, categoriesOf] at h
    have hparent := parseLoop_parent (ac :: restCols) ac
      (month_columns_of (ac :: restCols)) f.rows.length f.rows 0 [] pre c
      post h
    rw [List.nil_append] at hparent
    have hpw := parseLoop_pairwise (ac :: restCols) ac
      (month_columns_of (ac :: restCols)) f.rows.length f.rows 0 []
    rw [h] at hpw
    refine ⟨?_, hparent, ?_⟩
    · intro h0
      rw [hparent, h0]
      simp [extract_parent_category]
    · intro p hl hp
      rw [hparent] at hp
      simp only [extract_parent_category] at hp
      rw [if_neg (by omega)] at hp
      obtain ⟨b, hfind, hname⟩ := Option.map_eq_some'.mp hp
      have hmem : b ∈ pre.reverse := List.mem_of_find?_eq_some hfind
      have hpred := List.find?_some hfind
      refine ⟨b, List.mem_reverse.mp hmem, hname, by simpa using hpred, ?_⟩
      have hsplit := (List.pairwise_append.mp hpw).2.2
      exact hsplit b (List.mem_reverse.mp hmem) c (List.mem_cons_self c post)

/-- C3 witness: on the two-row table the MARKETING EXPENSE category's
parent is the level-0 "Total Income" category emitted just before it. -/
theorem c3_parent_hierarchy_invariant_witness :
    categoriesOf (parse_income_statement_csv c3frame "2030" "TS") =
      [c3cat0] ++ c3cat1 :: [] ∧
    c3cat1.parent_category =
      extract_parent_category c3cat1.category_level [c3cat0] := by
  refine ⟨by decide, ?_⟩
  exact (c3_parent_hierarchy_invariant c3frame "2030" "TS" [c3cat0] c3cat1
    [] (by decide)).2.1

/-- C10: every emitted category is stamped with its raw dataframe row
index — `category_id` is `"cat_"` followed by `display_order`,
`category_type` is computed from `display_order` and the raw row count
(not the emitted-category count), and `display_order` is bounded by the
raw row count; on the 5-row table with a blank first row the ids are
`cat_1 … cat_4` (a gap at 0) and the unrecognised label at raw index 4
of 5 raw rows falls in the 40–90% band ("expense", where the 4 emitted
categories alone would give "other"). -/
theorem c10_raw_row_indexing :
    (∀ (f : Frame) (now_year now_iso : String) (c : Category),
      c ∈ categoriesOf (parse_income_statement_csv f now_year now_iso) →
      c.category_id = "cat_" ++ toString c.display_order ∧
      c.category_type =
        detect_category_type (some c.account_name) c.display_order
          f.rows.length ∧
      c.display_order < f.rows.length) ∧
    catSummary (parse_income_statement_csv c10frame "2030" "TS") =
      [("cat_1", 1, "cogs"), ("cat_2", 2, "expense"),
       ("cat_3", 3, "expense"), ("cat_4", 4, "expense")] ∧
    (categoriesOf (parse_income_statement_csv c10frame "2030" "TS")).length
      = 4 ∧
    c10frame.rows.length = 5 ∧
    detect_category_type (some "Miscellaneous") 4 5 = "expense" ∧
    detect_category_type (some "Miscellaneous") 4 4 = "other" := by
  refine ⟨?_, by decide, by decide, by decide, by decide, by decide⟩
  intro f ny ni c hc
  cases hcols : f.columns with
  | nil =>
    simp [parse_income_statement_csv, hcols, categoriesOf] at hc
  | cons ac restCols =>
    simp only [parse_income_statement_csv, hcols, categoriesOf] at hc
    have h := parseLoop_mem (ac :: restCols) ac
      (month_columns_of (ac :: restCols)) f.rows.length f.rows 0 [] c hc
    refine ⟨h.1, h.2.1, ?_⟩
    have := h.2.2.2
    omega

/-- C10 witness: the raw-index stamping instantiated on the
`Miscellaneous` category of the blank-row table. -/
theorem c10_raw_row_indexing_witness :
    c10cat ∈ categoriesOf (parse_income_statement_csv c10frame "2030" "TS")
      ∧
    c10cat.category_id = "cat_" ++ toString c10cat.display_order ∧
    c10cat.category_type =
      detect_category_type (some c10cat.account_name)
        c10cat.display_order c10frame.rows.length := by
  refine ⟨by decide, ?_, ?_⟩
  · exact (c10_raw_row_indexing.1 c10frame "2030" "TS" c10cat (by decide)).1
  · exact (c10_raw_row_indexing.1 c10frame "2030" "TS" c10cat
      (by decide)).2.1
